import Mathlib

/-
Verification of the task-tracker frontend realtime/session subsystem.

The definitions below are shallow embeddings of the JavaScript source:
  - WebSocketContext.js   (realtime channel manager, notification/chat caches,
                           sound side-effect, reconnect loop; the same file also
                           bundles a second AuthProvider variant)
  - AuthContext.js        (session store: login/logout, axios 401-refresh
                           interceptor)
  - NotificationBell.js   (unread counter + notification dropdown, REST-polled)
  - Chat page (src/unnamed/part_001: message merge effect, conversation pinning,
               attachment upload validation)

Stateful handlers become explicit state-passing functions; network calls become
oracle parameters carrying the outcome the awaited promise resolved with, and
the requests a handler issues are recorded in an action trace.
-/

namespace TaskTracker

/-! ## Chat message cache
WebSocketContext.js keeps one list of messages per conversation id
(`chatMessages`); the Chat page keeps the displayed list (`messages`) and merges
the websocket list into it. We model the two lists of a single conversation. -/

structure ChatMsg where
  id : String
  conversation_id : String
  sender_id : String
  deriving DecidableEq

/-- WebSocketContext.js lines 83-90: the chat_message handler appends the event
payload to the end of the per-conversation list, with no deduplication at this
layer. The same append is performed by addLocalMessage (lines 182-190), which is
how an optimistic REST-send lands in the cache. -/
def wsAppendChatMessage (cache : List ChatMsg) (m : ChatMsg) : List ChatMsg :=
  cache ++ [m]

/-- Chat page (part_001 lines 48-57): the merge effect appends to the displayed
list every websocket-cache message whose id is not already displayed. -/
def mergeWsMessages (prev ws : List ChatMsg) : List ChatMsg :=
  let existingIds := prev.map (fun m => m.id)
  prev ++ ws.filter (fun m => !(existingIds.contains m.id))

/-- Number of entries of the list carrying the given message identifier. -/
def countById (i : String) (l : List ChatMsg) : Nat :=
  l.countP (fun m => m.id == i)

/-- Combined per-conversation state: the WebSocketContext cache for the
conversation, the Chat page's displayed message list, and a counter of
alert-side-effect invocations (playNotificationSound calls). -/
structure ChatLocalState where
  wsMessages : List ChatMsg
  messages : List ChatMsg
  alertsTriggered : Nat
  deriving DecidableEq

/-- Delivery of one chat_message event (or one optimistic addLocalMessage) for
the selected conversation: the handler appends to the websocket cache
(WebSocketContext.js lines 83-90), the merge effect then folds the cache into
the displayed list (part_001 lines 48-57), and the sound side-effect fires when
the sender is not the current user (WebSocketContext.js lines 91-94). -/
def onChatMessageEvent (userId : String) (s : ChatLocalState) (m : ChatMsg) :
    ChatLocalState :=
  let ws := wsAppendChatMessage s.wsMessages m
  { wsMessages := ws
    messages := mergeWsMessages s.messages ws
    alertsTriggered :=
      s.alertsTriggered + (if m.sender_id != userId then 1 else 0) }

theorem countById_append (i : String) (a b : List ChatMsg) :
    countById i (a ++ b) = countById i a + countById i b := by
  simp [countById, List.countP_append]

theorem countById_merge_of_mem (i : String) (prev ws : List ChatMsg)
    (h : i ∈ prev.map (fun m => m.id)) :
    countById i (mergeWsMessages prev ws) = countById i prev := by
  have hz :
      countById i
        (ws.filter (fun m => !((prev.map (fun m => m.id)).contains m.id))) = 0 := by
    rw [countById, List.countP_eq_zero]
    intro m hm
    rcases List.mem_filter.mp hm with ⟨_, hkeep⟩
    intro hbeq
    have hid : m.id = i := by
      simpa using hbeq
    have hc : (prev.map (fun m => m.id)).contains m.id = true := by
      rw [List.contains_eq_any_beq]
      refine List.any_eq_true.mpr ?_
      exact ⟨i, h, by simp [hid]⟩
    rw [hc] at hkeep
    simp at hkeep
  calc countById i (mergeWsMessages prev ws)
      = countById i prev +
          countById i
            (ws.filter (fun m => !((prev.map (fun m => m.id)).contains m.id))) := by
        simp [mergeWsMessages, countById, List.countP_append]
    _ = countById i prev := by rw [hz]; omega

/-- C1: delivering a chat_message event whose identifier is already displayed
exactly once (whether it got there by REST history fetch, optimistic REST-send
append, or an earlier push delivery) leaves the displayed message list with
exactly one entry carrying that identifier: the merge into the displayed
per-conversation list is idempotent on message identifier. -/
theorem chat_message_merge_idempotent (userId : String) (s : ChatLocalState)
    (m : ChatMsg) (h : countById m.id s.messages = 1) :
    countById m.id (onChatMessageEvent userId s m).messages = 1 := by
  have hmem : m.id ∈ s.messages.map (fun x => x.id) := by
    have hpos : 0 < countById m.id s.messages := by omega
    rw [countById, List.countP_pos_iff] at hpos
    rcases hpos with ⟨x, hx, hbeq⟩
    have : x.id = m.id := by simpa using hbeq
    exact this ▸ List.mem_map_of_mem (fun y => y.id) hx
  calc countById m.id (onChatMessageEvent userId s m).messages
      = countById m.id s.messages :=
        countById_merge_of_mem m.id s.messages _ hmem
    _ = 1 := h

/-- C1 witness: a REST-sent message followed by its push echo of the same
identifier ends with exactly one displayed entry of that identifier. -/
theorem chat_message_merge_idempotent_witness :
    countById "m1"
      (onChatMessageEvent "me"
        (onChatMessageEvent "me" ⟨[], [], 0⟩ ⟨"m1", "c1", "me"⟩)
        ⟨"m1", "c1", "me"⟩).messages = 1 :=
  chat_message_merge_idempotent "me"
    (onChatMessageEvent "me" ⟨[], [], 0⟩ ⟨"m1", "c1", "me"⟩)
    ⟨"m1", "c1", "me"⟩ (by decide)

/-! ## Notification cache and unread counter
WebSocketContext.js lines 74-81 hold the push-delivered notification list and a
session-lifetime Set of already-seen identifiers; NotificationBell.js holds the
unread counter and the dropdown list, both fed exclusively by REST calls
(polling every 30 seconds plus mark-read actions). The bell component does not
subscribe to the websocket context at all. -/

structure Notif where
  id : String
  ntype : String
  message : String
  is_read : Bool
  deriving DecidableEq

/-- State owned by WebSocketContext.js: notificationCacheRef (the Set of seen
identifiers, modelled as a list with membership), the notifications list, and a
counter of playNotificationSound invocations. -/
structure WsNotifState where
  cacheIds : List String
  notifications : List Notif
  alertsTriggered : Nat
  deriving DecidableEq

/-- State owned by NotificationBell.js: its own notification list and the
unreadCount state (an Int, since the code guards the decrement with
Math.max(0, prev - 1)). -/
structure BellState where
  notifications : List Notif
  unreadCount : Int
  deriving DecidableEq

/-- WebSocketContext.js lines 74-81: if the id is in the cache Set, the event is
dropped; otherwise the id is added, the notification is prepended, and
playNotificationSound is invoked. -/
def onNotificationEvent (s : WsNotifState) (n : Notif) : WsNotifState :=
  if s.cacheIds.contains n.id then s
  else
    { cacheIds := n.id :: s.cacheIds
      notifications := n :: s.notifications
      alertsTriggered := s.alertsTriggered + 1 }

/-- The whole client-side notification state: the websocket-fed cache and the
REST-fed bell component. -/
structure NotifSystem where
  ws : WsNotifState
  bell : BellState
  deriving DecidableEq

/-- Push delivery of a notification event. Only WebSocketContext state changes:
no component wires the websocket notifications into NotificationBell, whose
unreadCount is updated only by its own REST calls. -/
def deliverNotification (s : NotifSystem) (n : Notif) : NotifSystem :=
  { s with ws := onNotificationEvent s.ws n }

/-- REST completions that drive NotificationBell.js. Failed calls only raise a
toast, leaving the state unchanged, so they are identity steps. -/
inductive BellEvent
  | fetchCountOk (serverCount : Nat)
  | fetchCountErr
  | fetchListOk (serverList : List Notif)
  | fetchListErr
  | markReadOk (id : String)
  | markReadErr (id : String)
  | markAllReadOk
  | markAllReadErr

/-- NotificationBell.js handlers: fetchUnreadCount (lines 43-50) overwrites the
counter with the server value; fetchNotifications (lines 52-62) overwrites the
list; handleMarkAsRead (lines 64-74) flips one read flag and decrements the
counter floored at zero; handleMarkAllRead (lines 76-85) flips every flag and
zeroes the counter. -/
def bellStep (s : BellState) : BellEvent → BellState
  | .fetchCountOk c => { s with unreadCount := (c : Int) }
  | .fetchCountErr => s
  | .fetchListOk l => { s with notifications := l }
  | .fetchListErr => s
  | .markReadOk i =>
      { notifications :=
          s.notifications.map (fun n =>
            if n.id == i then { n with is_read := true } else n)
        unreadCount := max 0 (s.unreadCount - 1) }
  | .markReadErr _ => s
  | .markAllReadOk =>
      { notifications := s.notifications.map (fun n => { n with is_read := true })
        unreadCount := 0 }
  | .markAllReadErr => s

/-- NotificationBell.js initial state: empty list, counter 0. -/
def bellInit : BellState := ⟨[], 0⟩

/-- States NotificationBell.js can reach from mount by any sequence of REST
completions. -/
inductive BellReachable : BellState → Prop
  | init : BellReachable bellInit
  | step : ∀ {s : BellState} (e : BellEvent), BellReachable s →
      BellReachable (bellStep s e)

/-- C4 counterexample: delivering the fresh notification n1 while the bell's
unread count is 0 leaves the unread count at 0, not 1 — the push handler never
increments any unread counter (the bell counter only moves on its own REST
completions). The notification itself is prepended once and the alert fires. -/
theorem notification_event_no_counter_increment :
    (deliverNotification ⟨⟨[], [], 0⟩, bellInit⟩ ⟨"n1", "task_assigned", "m", false⟩).bell.unreadCount = 0 ∧
    (deliverNotification ⟨⟨[], [], 0⟩, bellInit⟩ ⟨"n1", "task_assigned", "m", false⟩).bell.unreadCount ≠ 1 ∧
    (deliverNotification ⟨⟨[], [], 0⟩, bellInit⟩ ⟨"n1", "task_assigned", "m", false⟩).ws.notifications =
      [⟨"n1", "task_assigned", "m", false⟩] := by
  constructor
  · rfl
  · exact ⟨by decide, by rfl⟩

/-- C4 amended: a duplicate notification event is ignored entirely; a fresh one
is prepended to the head of the websocket notification list, recorded in the
de-duplication set, and triggers the alert side-effect — but no unread counter
is incremented: the bell state is untouched by push delivery in every case, and
its counter changes only through its own REST polling and mark-read calls. -/
theorem notification_event_dedup_amended (s : NotifSystem) (n : Notif) :
    (s.ws.cacheIds.contains n.id = true → deliverNotification s n = s) ∧
    (s.ws.cacheIds.contains n.id = false →
      (deliverNotification s n).ws.notifications = n :: s.ws.notifications ∧
      (deliverNotification s n).ws.cacheIds = n.id :: s.ws.cacheIds ∧
      (deliverNotification s n).ws.alertsTriggered = s.ws.alertsTriggered + 1) ∧
    (deliverNotification s n).bell = s.bell := by
  refine ⟨fun hdup => ?_, fun hfresh => ?_, rfl⟩
  · have hmem : n.id ∈ s.ws.cacheIds := by simpa using hdup
    simp [deliverNotification, onNotificationEvent, hmem]
  · have hmem : n.id ∉ s.ws.cacheIds := by simpa using hfresh
    simp [deliverNotification, onNotificationEvent, hmem]

/-- C4 amended witness: the fresh case at a concrete input. -/
theorem notification_event_dedup_amended_witness :
    (deliverNotification ⟨⟨[], [], 0⟩, bellInit⟩ ⟨"n1", "task_assigned", "m", false⟩).ws.notifications =
      [⟨"n1", "task_assigned", "m", false⟩] ∧
    (deliverNotification ⟨⟨[], [], 0⟩, bellInit⟩ ⟨"n1", "task_assigned", "m", false⟩).bell =
      bellInit :=
  ⟨((notification_event_dedup_amended ⟨⟨[], [], 0⟩, bellInit⟩
      ⟨"n1", "task_assigned", "m", false⟩).2.1 (by decide)).1,
   (notification_event_dedup_amended ⟨⟨[], [], 0⟩, bellInit⟩
      ⟨"n1", "task_assigned", "m", false⟩).2.2⟩

/-- C6 counterexample: the state reached from mount by a single successful
unread-count poll returning 1 has counter 1 while the cached list is empty, so
the counter does not equal the number of cached notifications with read flag
false — the counter mirrors the server-side total, not the local cache. -/
theorem bell_counter_cache_mismatch :
    BellReachable (bellStep bellInit (BellEvent.fetchCountOk 1)) ∧
    (bellStep bellInit (BellEvent.fetchCountOk 1)).unreadCount ≠
      (((bellStep bellInit (BellEvent.fetchCountOk 1)).notifications.filter
          (fun n => !n.is_read)).length : Int) :=
  ⟨BellReachable.step (BellEvent.fetchCountOk 1) BellReachable.init, by decide⟩

/-- C6 amended: in every reachable state of the bell the unread counter is
nonnegative; it need not equal the count of cached notifications with read flag
false, because the counter and the list are fetched by independent REST calls. -/
theorem bell_unread_nonneg (s : BellState) (h : BellReachable s) :
    0 ≤ s.unreadCount := by
  induction h with
  | init => decide
  | step e _ ih =>
    cases e with
    | fetchCountOk c => simp only [bellStep]; exact Int.natCast_nonneg c
    | fetchCountErr => exact ih
    | fetchListOk l => simp only [bellStep]; exact ih
    | fetchListErr => exact ih
    | markReadOk i => simp only [bellStep]; exact le_max_left 0 _
    | markReadErr i => exact ih
    | markAllReadOk => simp [bellStep]
    | markAllReadErr => exact ih

/-- C6 amended witness: nonnegativity at a concrete reachable state. -/
theorem bell_unread_nonneg_witness :
    0 ≤ (bellStep bellInit (BellEvent.markReadOk "n1")).unreadCount :=
  bell_unread_nonneg (bellStep bellInit (BellEvent.markReadOk "n1"))
    (BellReachable.step (BellEvent.markReadOk "n1") BellReachable.init)

/-! ## Conversation list ordering on pin toggle
Chat page, part_001 lines 271-285: pinConversation maps the new pin flag onto
the matching conversation and then sorts the list with a comparator that orders
pinned before unpinned and returns 0 on every tie. ES2019+ Array.prototype.sort
is required to be stable, so the sort is modelled by a stable insertion sort
parameterised by the comparator. -/

structure Conversation where
  id : String
  is_pinned : Bool
  last_message_at : Nat
  deriving DecidableEq

/-- Comparator of part_001 lines 276-280: pinned sorts before unpinned; every
other pair compares equal (0). It never reads last_message_at. -/
def pinCmp (a b : Conversation) : Int :=
  if a.is_pinned && !b.is_pinned then -1
  else if !a.is_pinned && b.is_pinned then 1
  else 0

/-- Stable insertion: the element goes in front of the first element it is not
strictly after (comparator value at most 0), keeping earlier-listed elements
ahead of later ones on ties. -/
def insertCmp (cmp : Conversation → Conversation → Int) (x : Conversation) :
    List Conversation → List Conversation
  | [] => [x]
  | y :: ys => if cmp x y ≤ 0 then x :: y :: ys else y :: insertCmp cmp x ys

/-- Stable sort by a JS comparator (model of Array.prototype.sort, which is
specified stable since ES2019). -/
def sortCmp (cmp : Conversation → Conversation → Int) (l : List Conversation) :
    List Conversation :=
  l.foldr (insertCmp cmp) []

/-- part_001 lines 274-275: flip the pin flag of the matching conversation. -/
def updatePin (convId : String) (shouldPin : Bool) (l : List Conversation) :
    List Conversation :=
  l.map (fun c => if c.id == convId then { c with is_pinned := shouldPin } else c)

/-- part_001 lines 271-285 (success path of the pin REST call): update the flag,
then sort with the pin comparator. -/
def pinConversation (convId : String) (shouldPin : Bool)
    (prev : List Conversation) : List Conversation :=
  sortCmp pinCmp (updatePin convId shouldPin prev)

/-- Last-message times are weakly descending along the list. -/
def timeDescB : List Conversation → Bool
  | [] => true
  | [_] => true
  | a :: b :: t => (b.last_message_at ≤ a.last_message_at) && timeDescB (b :: t)

theorem insertCmp_pinned (a : Conversation) (ha : a.is_pinned = true)
    (l : List Conversation) : insertCmp pinCmp a l = a :: l := by
  cases l with
  | nil => rfl
  | cons y ys =>
    have hle : pinCmp a y ≤ 0 := by
      cases hy : y.is_pinned <;> simp [pinCmp, ha, hy]
    simp [insertCmp, hle]

theorem insertCmp_unpinned (a : Conversation) (ha : a.is_pinned = false)
    (P U : List Conversation) (hP : ∀ p ∈ P, p.is_pinned = true)
    (hU : ∀ u ∈ U, u.is_pinned = false) :
    insertCmp pinCmp a (P ++ U) = P ++ a :: U := by
  induction P with
  | nil =>
    cases U with
    | nil => rfl
    | cons u us =>
      have hu : u.is_pinned = false := hU u (by simp)
      have hle : pinCmp a u ≤ 0 := by simp [pinCmp, ha, hu]
      simp [insertCmp, hle]
  | cons p ps ih =>
    have hp : p.is_pinned = true := hP p (by simp)
    have hgt : ¬ pinCmp a p ≤ 0 := by simp [pinCmp, ha, hp]
    simp only [List.cons_append, insertCmp, if_neg hgt, List.append_eq]
    rw [ih (fun q hq => hP q (by simp [hq]))]

theorem sortCmp_pin_partition (l : List Conversation) :
    sortCmp pinCmp l =
      l.filter (fun c => c.is_pinned) ++ l.filter (fun c => !c.is_pinned) := by
  induction l with
  | nil => rfl
  | cons a t ih =>
    have hstep : sortCmp pinCmp (a :: t) = insertCmp pinCmp a (sortCmp pinCmp t) := rfl
    rw [hstep, ih]
    cases ha : a.is_pinned with
    | true =>
      rw [insertCmp_pinned a ha]
      simp [List.filter, ha]
    | false =>
      rw [insertCmp_unpinned a ha _ _
        (fun p hp => (List.mem_filter.mp hp).2)
        (fun u hu => by
          have := (List.mem_filter.mp hu).2
          simpa using this)]
      simp [List.filter, ha]

/-- C5 amended: after a pin toggle, the list is exactly the pinned conversations
in their previous relative order followed by the unpinned ones in their previous
relative order — pinned always precede unpinned and both groups keep stable
order, but the sort never consults last-message time, so a group is ordered by
last-message time descending only if it already was. -/
theorem pin_sort_stable_partition (convId : String) (shouldPin : Bool)
    (prev : List Conversation) :
    pinConversation convId shouldPin prev =
      (updatePin convId shouldPin prev).filter (fun c => c.is_pinned) ++
        (updatePin convId shouldPin prev).filter (fun c => !c.is_pinned) :=
  sortCmp_pin_partition (updatePin convId shouldPin prev)

/-- C5 counterexample: pinning conversation c in the list [a(t=1), b(t=2),
c(t=3)] (all unpinned) yields [c pinned, a(t=1), b(t=2)]; the unpinned group is
in ascending last-message order, refuting the claim that after the operation
each group is ordered by last-message time descending. -/
theorem pin_sort_ignores_time :
    pinConversation "c" true
        [⟨"a", false, 1⟩, ⟨"b", false, 2⟩, ⟨"c", false, 3⟩] =
      [⟨"c", true, 3⟩, ⟨"a", false, 1⟩, ⟨"b", false, 2⟩] ∧
    timeDescB ((pinConversation "c" true
        [⟨"a", false, 1⟩, ⟨"b", false, 2⟩, ⟨"c", false, 3⟩]).filter
          (fun c => !c.is_pinned)) = false := by
  constructor
  · rfl
  · rfl

/-! ## Attachment upload validation
Chat page, part_001 lines 202-230: handleFileUpload validates the chosen file
client-side — extension allow-list first, then the 10 MB size cap — and only
when both pass does it issue the REST upload call. -/

/-- part_001 line 207. -/
def allowedTypes : List String := [".pdf", ".jpg", ".jpeg", ".png", ".doc", ".docx"]

/-- JS String.prototype.lastIndexOf applied to a dot: index of the last dot, or
-1 when there is none. -/
def lastIndexOfDot (s : String) : Int :=
  match s.data.reverse.findIdx? (fun c => c == '.') with
  | some j => ((s.data.length - 1 - j : Nat) : Int)
  | none => -1

/-- JS String.prototype.substring with one argument clamps a negative start to
0, so lastIndexOf = -1 yields the whole string. -/
def jsSubstringFrom (s : String) (i : Int) : String :=
  String.mk (s.data.drop i.toNat)

/-- JS String.prototype.toLowerCase, modelled over the character list (ASCII
case folding, which covers file extensions). -/
def jsToLower (s : String) : String :=
  String.mk (s.data.map Char.toLower)

/-- part_001 line 208: the extension is the substring from the last dot,
lowercased. -/
def fileExt (name : String) : String :=
  jsToLower (jsSubstringFrom name (lastIndexOfDot name))

structure JsFile where
  name : String
  size : Nat
  deriving DecidableEq

/-- Result of the client-side validation: the two ValidationError rejections
happen before any network call; uploadCalled means control reached the REST
upload request. -/
inductive UploadOutcome
  | rejectedType
  | rejectedSize
  | uploadCalled
  deriving DecidableEq

/-- part_001 lines 202-230: extension check first (lines 207-212, independent of
size), then the 10 * 1024 * 1024 byte cap (lines 214-217), else the upload POST
is issued (lines 219-229). -/
def handleFileUpload (f : JsFile) : UploadOutcome :=
  if !(allowedTypes.contains (fileExt f.name)) then .rejectedType
  else if f.size > 10 * 1024 * 1024 then .rejectedSize
  else .uploadCalled

/-- C7: a file whose extension is outside the allow-list is rejected before
upload regardless of size; an allowed file above 10 MB is rejected before
upload; an allowed file of at most 10 MB proceeds to the REST upload call. -/
theorem file_upload_validation (f : JsFile) :
    (allowedTypes.contains (fileExt f.name) = false →
      handleFileUpload f = UploadOutcome.rejectedType) ∧
    (allowedTypes.contains (fileExt f.name) = true → 10 * 1024 * 1024 < f.size →
      handleFileUpload f = UploadOutcome.rejectedSize) ∧
    (allowedTypes.contains (fileExt f.name) = true → f.size ≤ 10 * 1024 * 1024 →
      handleFileUpload f = UploadOutcome.uploadCalled) := by
  refine ⟨fun hext => ?_, fun hext hsize => ?_, fun hext hsize => ?_⟩
  · unfold handleFileUpload
    rw [hext]
    rfl
  · unfold handleFileUpload
    rw [hext]
    have hc : ¬((!true) = true) := by decide
    rw [if_neg hc, if_pos hsize]
  · unfold handleFileUpload
    rw [hext]
    have hc : ¬((!true) = true) := by decide
    have hs : ¬(f.size > 10 * 1024 * 1024) := by omega
    rw [if_neg hc, if_neg hs]

/-- C7 witness: report.exe (any size, here 123 bytes) is rejected for its type,
report.pdf at 11 MB is rejected for its size, and report.pdf at 2 MB reaches
the upload call. -/
theorem file_upload_validation_witness :
    handleFileUpload ⟨"report.exe", 123⟩ = UploadOutcome.rejectedType ∧
    handleFileUpload ⟨"report.pdf", 11 * 1024 * 1024⟩ = UploadOutcome.rejectedSize ∧
    handleFileUpload ⟨"report.pdf", 2 * 1024 * 1024⟩ = UploadOutcome.uploadCalled :=
  ⟨(file_upload_validation ⟨"report.exe", 123⟩).1 (by decide),
   (file_upload_validation ⟨"report.pdf", 11 * 1024 * 1024⟩).2.1 (by decide) (by decide),
   (file_upload_validation ⟨"report.pdf", 2 * 1024 * 1024⟩).2.2 (by decide) (by decide)⟩

/-! ## Session store
AuthContext.js: token/refreshToken state mirrored to localStorage, the axios
default Authorization header, the 401-refresh response interceptor (lines
37-55), and logout (lines 79-86). The WebSocketContext.js file additionally
bundles a second AuthProvider variant whose logout (lines 303-320 of that file)
first POSTs a best-effort revocation and clears local state in a finally block.
Headers are modelled by the credential they carry. -/

structure AuthState where
  token : Option String
  refreshToken : Option String
  user : Option String
  storageToken : Option String
  storageRefreshToken : Option String
  axiosAuthHeader : Option String
  deriving DecidableEq

/-- Every session field cleared: storage keys removed, identity null, header
deleted. -/
def clearedAuthState : AuthState := ⟨none, none, none, none, none, none⟩

/-- Observable actions of the session store: a request attempt carrying an
Authorization credential, a refresh POST, a revocation POST, and the run of the
local logout teardown. -/
inductive CallAction
  | attempt (authHeader : Option String)
  | refreshCall (refreshTok : String)
  | revokeCall (refreshTok : String)
  | logoutRun
  deriving DecidableEq

/-- AuthContext.js lines 79-86: logout removes both storage keys, nulls token,
refreshToken and user, and deletes the axios header. It makes no server call;
the returned action list records only that the local teardown ran. -/
def logout (_st : AuthState) : List CallAction × AuthState :=
  ([CallAction.logoutRun], clearedAuthState)

/-- AuthProvider variant bundled in the WebSocketContext.js file, lines 303-320:
try, if a refresh token is held, await POST /auth/logout with it; any error is
only logged; the finally block always clears every local session field. The
revocation outcome parameter is ignored precisely because the clear runs in
finally regardless of it. -/
def logoutVariant (st : AuthState) (_revokeOutcome : Except Unit Unit) :
    List CallAction × AuthState :=
  (match st.refreshToken with
    | some rt => [CallAction.revokeCall rt, CallAction.logoutRun]
    | none => [CallAction.logoutRun],
   clearedAuthState)

/-- Per-request axios config: the _retry flag the interceptor stamps on the
config object, and the Authorization header of the request. -/
structure AxiosRequest where
  retryFlag : Bool
  authHeader : Option String
  deriving DecidableEq

/-- Outcome of one network attempt as seen by the response interceptor:
success, an HTTP error status, or a network failure with no response (in which
case error.response?.status is undefined). -/
inductive AttemptOutcome
  | ok
  | errStatus (status : Nat)
  | errNoResponse
  deriving DecidableEq

/-- What the error interceptor resolves to: re-issue the original request
(return axios(originalRequest)) or propagate the rejection. -/
inductive InterceptorOutcome
  | retried (st : AuthState) (req : AxiosRequest)
  | rejected (st : AuthState)
  deriving DecidableEq

/-- AuthContext.js lines 37-55: on a 401 with a stored refresh token and an
unset _retry flag, stamp _retry, await the refresh POST; on success write the
new access token to storage, state, the axios default header and the original
request's header, and re-issue the original request; on refresh failure run
logout and reject. Any other error is rejected unchanged. The refresh POST
outcome is the oracle parameter. -/
def interceptorOnError (st : AuthState) (req : AxiosRequest)
    (status : Option Nat) (refreshResult : Except Unit String) :
    List CallAction × InterceptorOutcome :=
  if status == some 401 && st.refreshToken.isSome && !req.retryFlag then
    match st.refreshToken with
    | some rt =>
      match refreshResult with
      | .ok newTok =>
          ([CallAction.refreshCall rt],
           .retried
             { st with token := some newTok, storageToken := some newTok,
                       axiosAuthHeader := some newTok }
             { req with retryFlag := true, authHeader := some newTok })
      | .error _ =>
          (CallAction.refreshCall rt :: (logout st).1,
           .rejected (logout st).2)
    | none => ([], .rejected st)
  else ([], .rejected st)

/-- Continuation after the interceptor ran for the first failure: a rejection
resolves the caller with the error; a retry issues the request again, and a
second failure goes through the interceptor once more (where the stamped _retry
flag blocks any further refresh). The Bool result is true when the caller
finally sees a success. -/
def afterIntercept (prevActs : List CallAction) (o : InterceptorOutcome)
    (out2 : AttemptOutcome) (refresh2 : Except Unit String) :
    List CallAction × AuthState × Bool :=
  match o with
  | .rejected st1 => (prevActs, st1, false)
  | .retried st1 req1 =>
    match out2 with
    | .ok => (prevActs ++ [CallAction.attempt req1.authHeader], st1, true)
    | .errNoResponse =>
      match interceptorOnError st1 req1 none refresh2 with
      | (acts2, .rejected st2) =>
          (prevActs ++ [CallAction.attempt req1.authHeader] ++ acts2, st2, false)
      | (acts2, .retried st2 req2) =>
          (prevActs ++ [CallAction.attempt req1.authHeader] ++ acts2 ++
            [CallAction.attempt req2.authHeader], st2, false)
    | .errStatus s2 =>
      match interceptorOnError st1 req1 (some s2) refresh2 with
      | (acts2, .rejected st2) =>
          (prevActs ++ [CallAction.attempt req1.authHeader] ++ acts2, st2, false)
      | (acts2, .retried st2 req2) =>
          (prevActs ++ [CallAction.attempt req1.authHeader] ++ acts2 ++
            [CallAction.attempt req2.authHeader], st2, false)

/-- One request's full lifecycle through the interceptor: the first attempt, at
most one interceptor pass with its refresh oracle, the possible retry and the
second interceptor pass. -/
def processRequest (st : AuthState) (req : AxiosRequest)
    (out1 : AttemptOutcome) (refresh1 : Except Unit String)
    (out2 : AttemptOutcome) (refresh2 : Except Unit String) :
    List CallAction × AuthState × Bool :=
  match out1 with
  | .ok => ([CallAction.attempt req.authHeader], st, true)
  | .errNoResponse =>
    match interceptorOnError st req none refresh1 with
    | (acts, o) =>
        afterIntercept (CallAction.attempt req.authHeader :: acts) o out2 refresh2
  | .errStatus s =>
    match interceptorOnError st req (some s) refresh1 with
    | (acts, o) =>
        afterIntercept (CallAction.attempt req.authHeader :: acts) o out2 refresh2

def isRefreshCall : CallAction → Bool
  | .refreshCall _ => true
  | _ => false

def isLogoutRun : CallAction → Bool
  | .logoutRun => true
  | _ => false

def countRefresh (tr : List CallAction) : Nat := tr.countP isRefreshCall

def countLogout (tr : List CallAction) : Nat := tr.countP isLogoutRun

/-- C3: a single request failing with 401 while a refresh token is held issues
exactly one refresh exchange and exactly one retry of the original request,
carrying the new credential — never a second refresh or retry, whatever the
retried attempt returns (out2 is arbitrary, including a second 401); and when
the refresh exchange itself fails the store runs the logout teardown (storage
cleared, identity cleared) and propagates the rejection. -/
theorem auth_401_refresh_retry_once (st : AuthState) (rt newTok : String)
    (req : AxiosRequest) (out2 : AttemptOutcome) (refresh2 : Except Unit String)
    (hrt : st.refreshToken = some rt) (hflag : req.retryFlag = false) :
    (processRequest st req (AttemptOutcome.errStatus 401) (Except.ok newTok)
        out2 refresh2).1 =
      [CallAction.attempt req.authHeader, CallAction.refreshCall rt,
        CallAction.attempt (some newTok)] ∧
    (processRequest st req (AttemptOutcome.errStatus 401) (Except.error ())
        out2 refresh2).1 =
      [CallAction.attempt req.authHeader, CallAction.refreshCall rt,
        CallAction.logoutRun] ∧
    (processRequest st req (AttemptOutcome.errStatus 401) (Except.error ())
        out2 refresh2).2.1 = clearedAuthState ∧
    (processRequest st req (AttemptOutcome.errStatus 401) (Except.error ())
        out2 refresh2).2.2 = false := by
  refine ⟨?_, ?_, ?_, ?_⟩ <;>
    cases out2 <;>
      simp [processRequest, interceptorOnError, afterIntercept, hrt, hflag, logout]

/-- C3 witness: concrete run with the retry itself answering 401. -/
theorem auth_401_refresh_retry_once_witness :
    (processRequest ⟨some "t0", some "r0", some "u", some "t0", some "r0", some "t0"⟩
        ⟨false, some "t0"⟩ (AttemptOutcome.errStatus 401) (Except.ok "t1")
        (AttemptOutcome.errStatus 401) (Except.ok "t2")).1 =
      [CallAction.attempt (some "t0"), CallAction.refreshCall "r0",
        CallAction.attempt (some "t1")] :=
  (auth_401_refresh_retry_once
    ⟨some "t0", some "r0", some "u", some "t0", some "r0", some "t0"⟩ "r0" "t1"
    ⟨false, some "t0"⟩ (AttemptOutcome.errStatus 401) (Except.ok "t2")
    rfl rfl).1

/-- Interleaving of several requests that all fail with 401 before any refresh
response lands: each handler runs its synchronous prefix on the store state as
of the failure, guarded only by its own config's _retry flag (there is no
module-level in-flight-refresh marker in AuthContext.js), and each awaits its
own refresh POST, whose outcome is paired with the request. The concatenated
actions of the handlers, in order. -/
def concurrent401Acts (st : AuthState) :
    List (AxiosRequest × Except Unit String) → List CallAction
  | [] => []
  | p :: t => (interceptorOnError st p.1 (some 401) p.2).1 ++ concurrent401Acts st t

/-- The per-request resolutions of the same interleaving, in request order. -/
def concurrent401Outcomes (st : AuthState) :
    List (AxiosRequest × Except Unit String) → List InterceptorOutcome
  | [] => []
  | p :: t =>
      (interceptorOnError st p.1 (some 401) p.2).2 :: concurrent401Outcomes st t

theorem interceptor401_head (st : AuthState) (rt : String) (req : AxiosRequest)
    (res : Except Unit String) (hrt : st.refreshToken = some rt)
    (hflag : req.retryFlag = false) :
    interceptorOnError st req (some 401) res =
      match res with
      | .ok newTok =>
          ([CallAction.refreshCall rt],
           .retried
             { st with token := some newTok, storageToken := some newTok,
                       axiosAuthHeader := some newTok }
             { req with retryFlag := true, authHeader := some newTok })
      | .error _ =>
          ([CallAction.refreshCall rt, CallAction.logoutRun],
           .rejected clearedAuthState) := by
  cases res <;> simp [interceptorOnError, hrt, hflag, logout]

def isExceptError : Except Unit String → Bool
  | .error _ => true
  | .ok _ => false

/-- C2 counterexample: two concurrent requests failing with 401 while a refresh
token is held issue two refresh calls, not one, and when both refresh exchanges
fail the logout teardown runs twice, not once. -/
theorem concurrent401_two_refreshes :
    countRefresh (concurrent401Acts
        ⟨some "t0", some "r0", some "u", some "t0", some "r0", some "t0"⟩
        [(⟨false, some "t0"⟩, Except.error ()),
         (⟨false, some "t0"⟩, Except.error ())]) = 2 ∧
    countRefresh (concurrent401Acts
        ⟨some "t0", some "r0", some "u", some "t0", some "r0", some "t0"⟩
        [(⟨false, some "t0"⟩, Except.error ()),
         (⟨false, some "t0"⟩, Except.error ())]) ≠ 1 ∧
    countLogout (concurrent401Acts
        ⟨some "t0", some "r0", some "u", some "t0", some "r0", some "t0"⟩
        [(⟨false, some "t0"⟩, Except.error ()),
         (⟨false, some "t0"⟩, Except.error ())]) = 2 := by
  refine ⟨rfl, by decide, rfl⟩

/-- C2 amended: refresh-on-401 is not coalesced. With a stored refresh token,
n concurrent 401-failing requests with unset _retry flags issue n refresh
exchanges — one per request; each request that got a fresh token is re-issued
with the token of its own exchange, and each request whose own exchange failed
runs the logout teardown itself, so the teardown executes once per failed
exchange (it is idempotent, every run leaving the same cleared session). -/
theorem concurrent401_not_coalesced (st : AuthState) (rt : String)
    (pairs : List (AxiosRequest × Except Unit String))
    (hrt : st.refreshToken = some rt)
    (hfresh : ∀ p ∈ pairs, p.1.retryFlag = false) :
    countRefresh (concurrent401Acts st pairs) = pairs.length ∧
    countLogout (concurrent401Acts st pairs) =
      (pairs.filter (fun p => isExceptError p.2)).length ∧
    concurrent401Outcomes st pairs = pairs.map (fun p =>
      match p.2 with
      | .ok newTok =>
          InterceptorOutcome.retried
            { st with token := some newTok, storageToken := some newTok,
                      axiosAuthHeader := some newTok }
            { p.1 with retryFlag := true, authHeader := some newTok }
      | .error _ => InterceptorOutcome.rejected clearedAuthState) := by
  induction pairs with
  | nil => exact ⟨rfl, rfl, rfl⟩
  | cons p t ih =>
    have hp : p.1.retryFlag = false := hfresh p (by simp)
    obtain ⟨h1, h2, h3⟩ := ih (fun q hq => hfresh q (by simp [hq]))
    have hhead := interceptor401_head st rt p.1 p.2 hrt hp
    obtain ⟨req1, res1⟩ := p
    refine ⟨?_, ?_, ?_⟩
    · rw [concurrent401Acts, countRefresh, List.countP_append, hhead]
      rw [countRefresh] at h1
      cases res1 <;> simp [isRefreshCall, isLogoutRun, h1] <;> omega
    · rw [concurrent401Acts, countLogout, List.countP_append, hhead]
      rw [countLogout] at h2
      cases res1 with
      | ok newTok =>
        simp [isRefreshCall, isLogoutRun, isExceptError, List.filter_cons, h2]
      | error e =>
        simp [isRefreshCall, isLogoutRun, isExceptError, List.filter_cons, h2]
        omega
    · rw [concurrent401Outcomes, hhead, List.map_cons, h3]
      cases res1 <;> rfl

/-- C2 amended witness: one failed and one succeeding concurrent refresh. -/
theorem concurrent401_not_coalesced_witness :
    countRefresh (concurrent401Acts
        ⟨some "t0", some "r0", some "u", some "t0", some "r0", some "t0"⟩
        [(⟨false, some "t0"⟩, Except.ok "t1"),
         (⟨false, some "t0"⟩, Except.error ())]) = 2 :=
  (concurrent401_not_coalesced
    ⟨some "t0", some "r0", some "u", some "t0", some "r0", some "t0"⟩ "r0"
    [(⟨false, some "t0"⟩, Except.ok "t1"),
     (⟨false, some "t0"⟩, Except.error ())]
    rfl (by decide)).1

/-- C9 counterexample: a logout call on a session that does hold a refresh
credential performs only the local teardown — its action trace contains no
revocation call, refuting that every logout first attempts server-side
revocation (only the bundled AuthProvider variant does). -/
theorem logout_no_revocation :
    (logout ⟨some "t0", some "r0", some "u", some "t0", some "r0", some "t0"⟩).1 =
      [CallAction.logoutRun] ∧
    (⟨some "t0", some "r0", some "u", some "t0", some "r0", some "t0"⟩ :
        AuthState).refreshToken = some "r0" := by
  exact ⟨rfl, rfl⟩

/-- C9 amended: logout in AuthContext.js (the provider App.js mounts)
unconditionally clears all local session state and attempts no revocation call;
the AuthProvider variant bundled in the WebSocketContext.js file first attempts
a best-effort revocation of the held refresh credential and then clears all
local session state regardless of the revocation outcome. -/
theorem logout_clears_unconditionally (st : AuthState) (rt : String)
    (revokeOutcome : Except Unit Unit) (hrt : st.refreshToken = some rt) :
    (logout st).1 = [CallAction.logoutRun] ∧
    (logout st).2 = clearedAuthState ∧
    (logoutVariant st revokeOutcome).1 =
      [CallAction.revokeCall rt, CallAction.logoutRun] ∧
    (logoutVariant st revokeOutcome).2 = clearedAuthState := by
  refine ⟨rfl, rfl, ?_, rfl⟩
  simp [logoutVariant, hrt]

/-- C9 amended witness: concrete session, failed revocation. -/
theorem logout_clears_unconditionally_witness :
    (logoutVariant ⟨some "t0", some "r0", some "u", some "t0", some "r0", some "t0"⟩
        (Except.error ())).1 =
      [CallAction.revokeCall "r0", CallAction.logoutRun] :=
  (logout_clears_unconditionally
    ⟨some "t0", some "r0", some "u", some "t0", some "r0", some "t0"⟩ "r0"
    (Except.error ()) rfl).2.2.1

/-! ## Realtime channel manager: reconnect and teardown
WebSocketContext.js lines 128-137 (ws.onclose schedules connect() after a flat
3000 ms timeout stored in reconnectTimeoutRef) and lines 146-160 (the connect
effect, whose cleanup clears the pending timer and closes the socket on logout
or unmount). Closing a socket makes the browser deliver its close event
asynchronously, after the cleanup has returned; the onclose handler and the
timer callback are closures over the render in which connect was created, where
token and user were still non-null, so the guard at line 59 does not stop them. -/

structure ChanState where
  wsOpen : Bool
  pendingCloseEvent : Bool
  timerPending : Bool
  timerDelayMs : Nat
  tornDown : Bool
  opensAfterTeardown : Nat
  reconnectsScheduled : Nat
  deriving DecidableEq

/-- Event-loop occurrences that drive the channel manager. -/
inductive ChanEvent
  | serverClose
  | deliverClose
  | timerFire
  | teardown
  deriving DecidableEq

/-- Event-loop steps of the channel manager. serverClose: the socket drops and
its close event is queued. deliverClose: the queued close event runs ws.onclose
(lines 128-137), scheduling connect after 3000 ms. timerFire: the pending
timeout fires and the captured connect() opens a new socket (its closure's
token and user are the non-null values of the render that installed it).
teardown: the effect cleanup (lines 152-159) runs for logout or unmount:
clearTimeout on any pending timer, then close() on any open socket, which
queues a close event that will still be delivered afterwards. -/
def chanStep (s : ChanState) : ChanEvent → ChanState
  | .serverClose =>
      if s.wsOpen then { s with wsOpen := false, pendingCloseEvent := true } else s
  | .deliverClose =>
      if s.pendingCloseEvent then
        { s with pendingCloseEvent := false, timerPending := true,
                 timerDelayMs := 3000,
                 reconnectsScheduled := s.reconnectsScheduled + 1 }
      else s
  | .timerFire =>
      if s.timerPending then
        { s with timerPending := false, wsOpen := true,
                 opensAfterTeardown :=
                   s.opensAfterTeardown + (if s.tornDown then 1 else 0) }
      else s
  | .teardown =>
      { s with tornDown := true, timerPending := false, wsOpen := false,
               pendingCloseEvent := s.pendingCloseEvent || s.wsOpen }

/-- Connected session before logout. -/
def chanInit : ChanState := ⟨true, false, false, 0, false, 0, 0⟩

def chanRun (s : ChanState) (es : List ChanEvent) : ChanState :=
  es.foldl chanStep s

/-- C8: the code does schedule every reconnect with the flat 3000 ms delay and
the teardown cleanup does clear the pending timer and close the socket — but
the channel still resurrects for a destroyed session: after teardown, the close
event of the socket the cleanup just closed is delivered, ws.onclose schedules
a fresh reconnect that no cleanup ever cancels, and when it fires the captured
connect() opens a new WebSocket for the logged-out session. -/
theorem channel_resurrects_after_teardown :
    (chanStep chanInit ChanEvent.teardown).timerPending = false ∧
    (chanStep chanInit ChanEvent.teardown).wsOpen = false ∧
    (chanRun chanInit
        [ChanEvent.teardown, ChanEvent.deliverClose, ChanEvent.timerFire]).timerDelayMs = 3000 ∧
    (chanRun chanInit
        [ChanEvent.teardown, ChanEvent.deliverClose, ChanEvent.timerFire]).tornDown = true ∧
    (chanRun chanInit
        [ChanEvent.teardown, ChanEvent.deliverClose, ChanEvent.timerFire]).wsOpen = true ∧
    (chanRun chanInit
        [ChanEvent.teardown, ChanEvent.deliverClose, ChanEvent.timerFire]).opensAfterTeardown = 1 := by
  refine ⟨rfl, rfl, rfl, rfl, rfl, rfl⟩

/-! ## Sound side-effect and its persisted preference
WebSocketContext.js lines 20-56: playNotificationSound reads the
notificationSoundEnabled key; the cue plays when the key is absent
(getItem returns null) or when JSON.parse of the stored value is truthy. The
stored preference is modelled by its parsed JSON value. -/

/-- JSON value as produced by JSON.parse of the persisted preference (numbers
restricted to integers, which covers every value a boolean preference key can
meaningfully hold). -/
inductive JsValue
  | jnull
  | jbool (b : Bool)
  | jnum (n : Int)
  | jstr (s : String)
  deriving DecidableEq

/-- JS truthiness: null, false, 0 and the empty string are falsy. -/
def jsTruthy : JsValue → Bool
  | .jnull => false
  | .jbool b => b
  | .jnum n => n != 0
  | .jstr s => s != ""

/-- WebSocketContext.js line 22: soundEnabled === null || JSON.parse(soundEnabled).
none models an absent key. -/
def playDecision (stored : Option JsValue) : Bool :=
  match stored with
  | none => true
  | some v => jsTruthy v

/-- WebSocketContext.js line 92: an inbound chat message triggers the cue only
when its sender is not the current user. -/
def chatSoundTriggered (senderId userId : String) : Bool :=
  senderId != userId

/-- C10: with no persisted sound preference the cue plays, and with a persisted
preference the cue plays exactly when the stored value is truthy — so it is
suppressed only when the persisted preference evaluates to false; a fresh
notification and a chat message from another user both invoke the alert
side-effect. -/
theorem sound_default_enabled (v : JsValue) (s : WsNotifState) (n : Notif)
    (senderId userId : String) (hfresh : s.cacheIds.contains n.id = false) :
    playDecision none = true ∧
    playDecision (some v) = jsTruthy v ∧
    playDecision (some (JsValue.jbool false)) = false ∧
    (onNotificationEvent s n).alertsTriggered = s.alertsTriggered + 1 ∧
    chatSoundTriggered senderId userId = (senderId != userId) := by
  have hmem : n.id ∉ s.cacheIds := by simpa using hfresh
  exact ⟨rfl, rfl, rfl, by simp [onNotificationEvent, hmem], rfl⟩

/-- C10 witness: concrete fresh notification with the preference key absent. -/
theorem sound_default_enabled_witness :
    playDecision none = true ∧
    (onNotificationEvent ⟨[], [], 0⟩ ⟨"n1", "task_assigned", "m", false⟩).alertsTriggered =
      0 + 1 :=
  ⟨(sound_default_enabled (JsValue.jbool true) ⟨[], [], 0⟩
      ⟨"n1", "task_assigned", "m", false⟩ "a" "b" (by decide)).1,
   (sound_default_enabled (JsValue.jbool true) ⟨[], [], 0⟩
      ⟨"n1", "task_assigned", "m", false⟩ "a" "b" (by decide)).2.2.2.1⟩

end TaskTracker
